import Mathlib

/-!
Verification development for the anchor-based field-location engine of
PDFEditorPro (`src/modules.py`, `src/ocr_module.py`).

The Python source is shallowly embedded: pure helper functions become Lean
functions over `ℚ` (the source computes with IEEE floats; we use exact
rational arithmetic), fallible lookups become `Option`, and the external
text/OCR primitives (`page.search_for`, `page.get_text`, EasyOCR detection)
become function-valued fields of a `Page`/`OcrPage` structure, exactly as the
spec treats them ("assumed primitives" at the interface boundary).
-/

namespace PDFE

/-! ## Models of the Python string primitives used by the engine

`pyStrip`, `pyLower`, `pyIn`, `pyWords`, `pyReplace`, `pyStartsWith` model
Python's `str.strip()`, `str.lower()`, the `in` operator, `str.split()`,
`str.replace` and `str.startswith` on the character-list view of strings. -/

/-- Characters removed by `str.strip()` (whitespace). -/
def trimChars (l : List Char) : List Char :=
  ((l.dropWhile Char.isWhitespace).reverse.dropWhile Char.isWhitespace).reverse

/-- Python `s.strip()`. -/
def pyStrip (s : String) : String := ⟨trimChars s.toList⟩

/-- Python `s.lower()`. -/
def pyLower (s : String) : String := ⟨s.toList.map Char.toLower⟩

/-- `listPre a b` holds when `a` is an initial segment of `b`. -/
def listPre : List Char → List Char → Bool
  | [], _ => true
  | _ :: _, [] => false
  | a :: as, b :: bs => a = b && listPre as bs

/-- `listSub n h` holds when `n` occurs contiguously inside `h`. -/
def listSub : List Char → List Char → Bool
  | n, [] => n.isEmpty
  | n, c :: t => listPre n (c :: t) || listSub n t

/-- Python `needle in hay` on strings. -/
def pyIn (needle hay : String) : Bool := listSub needle.toList hay.toList

/-- Python `s.startswith(p)`. -/
def pyStartsWith (s p : String) : Bool := listPre p.toList s.toList

/-- Helper for `pyWords`: accumulates the current word (reversed). -/
def wordsAux : List Char → List Char → List (List Char)
  | [], cur => if cur.isEmpty then [] else [cur.reverse]
  | c :: cs, cur =>
    if c.isWhitespace then
      if cur.isEmpty then wordsAux cs [] else cur.reverse :: wordsAux cs []
    else wordsAux cs (c :: cur)

/-- Python `s.split()` (split on whitespace runs, no empty words). -/
def pyWords (s : String) : List String := (wordsAux s.toList []).map fun l => ⟨l⟩

/-- First whitespace-delimited word of a string, when one exists. -/
def firstWord (s : String) : Option String := (pyWords s).head?

/-- Helper for `pyReplace`: left-to-right non-overlapping replacement. -/
def replAux (pat rep : List Char) : List Char → List Char
  | [] => []
  | c :: cs =>
    if listPre pat (c :: cs) && !pat.isEmpty then
      rep ++ replAux pat rep (cs.drop (pat.length - 1))
    else
      c :: replAux pat rep cs
  termination_by l => l.length
  decreasing_by
    · simp only [List.length_cons, List.length_drop]
      omega
    · simp only [List.length_cons]
      omega

/-- Python `s.replace(pat, rep)` for non-empty `pat` (the engine only
replaces the literals `"Anchor: "` and `"..."`). -/
def pyReplace (s pat rep : String) : String := ⟨replAux pat.toList rep.toList s.toList⟩

/-! ## Geometry: rectangles and the visual→raw coordinate transform

`Rect` models a `fitz.Rect` (two corners).  `Rect.normalize`, `Rect.inter`
and `Rect.isEmpty` model `Rect.normalize()`, the `&` operator and
`Rect.is_empty` of PyMuPDF. -/

structure Rect where
  x0 : ℚ
  y0 : ℚ
  x1 : ℚ
  y1 : ℚ
deriving DecidableEq, Repr

/-- `fitz.Rect.normalize()`: order the corners. -/
def Rect.normalize (r : Rect) : Rect :=
  ⟨min r.x0 r.x1, min r.y0 r.y1, max r.x0 r.x1, max r.y0 r.y1⟩

/-- `fitz` rectangle intersection (`&`). -/
def Rect.inter (a b : Rect) : Rect :=
  ⟨max a.x0 b.x0, max a.y0 b.y0, min a.x1 b.x1, min a.y1 b.y1⟩

/-- `fitz.Rect.is_empty`. -/
def Rect.isEmpty (r : Rect) : Bool :=
  decide (r.x1 ≤ r.x0) || decide (r.y1 ≤ r.y0)

/-- `rect + (-d, -d, d, d)` (symmetric expansion, as in the value-text retry). -/
def Rect.expand (r : Rect) (d : ℚ) : Rect :=
  ⟨r.x0 - d, r.y0 - d, r.x1 + d, r.y1 + d⟩

/-- `transform_visual_to_pdf_coords` from `src/modules.py`: maps a visual-space
rectangle `(x, y, w, h)` to raw (PDF-internal) coordinates, given the page
dimensions passed by the caller and the page rotation.  Mirrors the Python
`if/elif` chain, including the final identity fallback for unsupported
rotation values. -/
def transform_visual_to_pdf_coords (x y w h page_width page_height : ℚ)
    (rotation : ℤ) : ℚ × ℚ × ℚ × ℚ :=
  if rotation = 0 then (x, y, w, h)
  else if rotation = 90 then (y, page_width - x - w, h, w)
  else if rotation = 180 then (page_width - x - w, page_height - y - h, w, h)
  else if rotation = 270 then (page_height - y - h, x, h, w)
  else (x, y, w, h)

/-- Page state recorded by `render_current_page` in `src/modules.py`:
`page_dimensions[key] = (page.rect.width, page.rect.height)` stores the
page's *visual* (already rotated) dimensions, and `page_rotations[key]`
stores `page.rotation`. -/
structure PageView where
  visualWidth : ℚ
  visualHeight : ℚ
  rotation : ℤ
deriving DecidableEq, Repr

/-- The visual→raw transform as the source invokes it: every call site passes
`page_width, page_height = self.page_dimensions[key]`, i.e. the *visual*
dimensions stored by `render_current_page`. -/
def visualToRaw (x y w h : ℚ) (p : PageView) : ℚ × ℚ × ℚ × ℚ :=
  transform_visual_to_pdf_coords x y w h p.visualWidth p.visualHeight p.rotation

/-- Modelled from the spec's words for claim C5 (rotation = 90):
`raw.x = visual.y`, `raw.y = page.width_raw − visual.x − visual.width`,
`raw.width = visual.height`, `raw.height = visual.width`, where
`page.width_raw` "is the raw-space width (equal to the page's visual
*height*)". -/
def specVisualToRaw90 (x y w h : ℚ) (p : PageView) : ℚ × ℚ × ℚ × ℚ :=
  (y, p.visualHeight - x - w, h, w)

/-! ## Native text locator and document model

A `Page` packages the PyMuPDF primitives the matcher calls on a loaded page:
`search_for` (all raw-space occurrence rectangles of a literal string, in the
locator's order), `get_text("text", clip=·)`, `get_text("blocks", clip=·)`
(modelled as the list of the blocks' text fields `block[4]`), `page.rect` and
`page.rotation`.  A document is its list of pages in page order. -/

structure Page where
  search_for : String → List Rect
  get_text_clip : Rect → String
  get_text_blocks : Rect → List String
  rect : Rect
  rotation : ℤ

/-- A template box row (`LabeledBox`): `name` (which, for anchors in the
native path, carries the captured anchor text), the OCR-captured
`anchor_text` (empty when NULL), and the stored raw-space geometry. -/
structure LabeledBox where
  name : String
  anchor_text : String
  x : ℚ
  y : ℚ
  width : ℚ
  height : ℚ
deriving DecidableEq, Repr

/-- The result dictionary returned by `_find_box_on_pages`. -/
structure Match where
  page : ℕ
  anchor_text : String
  value_text : String
  value_rect : Rect
  target_rotation : ℤ
deriving DecidableEq, Repr

/-! ## `_find_box_on_pages` (src/modules.py) -/

/-- `POSITION_TOLERANCE = 50` from `_find_box_on_pages`. -/
def POSITION_TOLERANCE : ℚ := 50

/-- One entry of the `secondary_anchors` list built by `_find_box_on_pages`. -/
structure SecondaryAnchor where
  text : String
  expected_dx : ℚ
  expected_dy : ℚ
deriving DecidableEq, Repr

/-- The `secondary_anchors` list: every anchor after the first whose stripped
name is non-empty, with its expected offset from the primary anchor. -/
def mkSecondaries (first_anchor : LabeledBox) (rest : List LabeledBox) :
    List SecondaryAnchor :=
  rest.filterMap fun a =>
    let t := pyStrip a.name
    if t = "" then none
    else some ⟨t, a.x - first_anchor.x, a.y - first_anchor.y⟩

/-- Inner loop of the secondary-anchor check: does some occurrence of
`s.text` on the page sit within `POSITION_TOLERANCE` of its expected offset
from the candidate primary occurrence `P`? -/
def secondary_matches (page : Page) (P : Rect) (s : SecondaryAnchor) : Bool :=
  (page.search_for s.text).any fun Q =>
    decide (|Q.x0 - P.x0 - s.expected_dx| ≤ POSITION_TOLERANCE) &&
    decide (|Q.y0 - P.y0 - s.expected_dy| ≤ POSITION_TOLERANCE)

/-- The `all_secondary_match` flag for one candidate primary occurrence. -/
def all_secondaries_match (page : Page) (P : Rect)
    (secs : List SecondaryAnchor) : Bool :=
  secs.all (secondary_matches page P)

/-- Candidate set of primary-anchor occurrences on a page: all occurrences of
the full primary text; when there are none, the occurrences of its first
whitespace-delimited word (the OCR-truncation fallback). -/
def primaryInstancesOn (pt : String) (page : Page) : List Rect :=
  let inst := page.search_for pt
  if inst.isEmpty then
    match firstWord pt with
    | some w => page.search_for w
    | none => inst
  else inst

/-- The value rectangle computed for an accepted candidate `P`:
`fitz.Rect(P.x0 + dx, P.y0 + dy, P.x0 + dx + w, P.y0 + dy + h)`,
normalized and intersected with the page bounds. -/
def valueRectFor (P : Rect) (value_dx value_dy value_w value_h : ℚ)
    (page : Page) : Rect :=
  (Rect.normalize ⟨P.x0 + value_dx, P.y0 + value_dy,
    P.x0 + value_dx + value_w, P.y0 + value_dy + value_h⟩).inter page.rect

/-- Value-text extraction for a value rectangle: empty when the rectangle is
empty; otherwise clipped text, retried with a 10-unit expansion clipped to
the page, then the block-level fallback concatenation. -/
def extract_value_text (page : Page) (vr : Rect) : String :=
  if vr.isEmpty then ""
  else
    let t := pyStrip (page.get_text_clip vr)
    if t ≠ "" then t
    else
      let t2 := pyStrip (page.get_text_clip ((vr.expand 10).inter page.rect))
      if t2 ≠ "" then t2
      else
        pyStrip ((page.get_text_blocks vr).foldl
          (fun acc b => acc ++ pyStrip b ++ " ") "")

/-- The body of the per-candidate loop of `_find_box_on_pages`: verify the
secondary anchors, compute the value rectangle, extract its text, and
produce the match when the text is non-empty. -/
def candidateResult (pt : String) (secs : List SecondaryAnchor)
    (value_dx value_dy value_w value_h : ℚ) (idx : ℕ) (page : Page)
    (P : Rect) : Option Match :=
  if all_secondaries_match page P secs then
    let vr := valueRectFor P value_dx value_dy value_w value_h page
    let vt := extract_value_text page vr
    if vt = "" then none
    else some ⟨idx, pt, vt, vr, page.rotation⟩
  else none

/-- Per-page search: the first candidate occurrence (in locator order) that
yields a match. -/
def find_on_page (pt : String) (secs : List SecondaryAnchor)
    (value_dx value_dy value_w value_h : ℚ) (idx : ℕ) (page : Page) :
    Option Match :=
  (primaryInstancesOn pt page).findSome?
    (candidateResult pt secs value_dx value_dy value_w value_h idx page)

/-- The page loop of `_find_box_on_pages`: pages strictly in order, stopping
at the first page that yields a match. -/
def search_pages (pt : String) (secs : List SecondaryAnchor)
    (value_dx value_dy value_w value_h : ℚ) :
    ℕ → List Page → Option Match
  | _, [] => none
  | idx, page :: rest =>
    match find_on_page pt secs value_dx value_dy value_w value_h idx page with
    | some m => some m
    | none => search_pages pt secs value_dx value_dy value_w value_h (idx + 1) rest

/-- `_find_box_on_pages(doc, label_box, anchors, values, ...)` from
`src/modules.py` (the geometry arguments `base_width`/`base_height`/
`template_rotation` are unused by the function body and omitted).  Guards:
no anchors, no values, or an empty stripped primary-anchor name yield
`None` without touching the document. -/
def find_box_on_pages (doc : List Page) (anchors values : List LabeledBox) :
    Option Match :=
  match anchors, values with
  | first_anchor :: rest, first_value :: _ =>
    let pt := pyStrip first_anchor.name
    if pt = "" then none
    else
      search_pages pt (mkSecondaries first_anchor rest)
        (first_value.x - first_anchor.x) (first_value.y - first_anchor.y)
        first_value.width first_value.height 0 doc
  | _, _ => none

/-- The document-wide candidate sequence: pages in page order and, within a
page, the primary-anchor occurrences in the order the locator returns them,
each tagged with its page index. -/
def allCandidates (pt : String) : ℕ → List Page → List (ℕ × Page × Rect)
  | _, [] => []
  | idx, page :: rest =>
    ((primaryInstancesOn pt page).map fun P => (idx, page, P)) ++
      allCandidates pt (idx + 1) rest

/-- Modelled from the spec's words for claim C3: the value rectangle with
`value.x = P.x + (V0.rect.x − A0.rect.x)`, `value.y = P.y + (V0.rect.y −
A0.rect.y)`, `value.width = V0.rect.width`, `value.height = V0.rect.height`,
normalized and intersected with the page bounds. -/
def specValueRect (P : Rect) (a0 v0 : LabeledBox) (page : Page) : Rect :=
  let vx := P.x0 + (v0.x - a0.x)
  let vy := P.y0 + (v0.y - a0.y)
  (Rect.normalize ⟨vx, vy, vx + v0.width, vy + v0.height⟩).inter page.rect

/-! ## `_find_box_with_ocr` (src/ocr_module.py) -/

/-- `OCR_DPI = 300` from `src/ocr_module.py`; value rectangles are converted
back to PDF points by `* 72 / OCR_DPI`. -/
def OCR_DPI : ℚ := 300

/-- One EasyOCR detection result over the full page raster, reduced to the
extremes of its bounding polygon (`min/max` of the corner coordinates, as
computed when the word list is built). -/
structure OcrToken where
  text : String
  x0 : ℚ
  y0 : ℚ
  x1 : ℚ
  y1 : ℚ
deriving DecidableEq, Repr

/-- An entry of the `words` list built from the detection results. -/
structure OcrWord where
  text : String
  left : ℚ
  top : ℚ
  width : ℚ
  height : ℚ
  center_x : ℚ
  center_y : ℚ
deriving DecidableEq, Repr

/-- An OCR-processed page: the full-page-raster detection output (the word
detection is run over the whole page first), and `_ocr_cropped_region` as a
primitive taking the crop rectangle `(x, y, w, h)` in raster coordinates. -/
structure OcrPage where
  tokens : List OcrToken
  crop_text : ℚ → ℚ → ℚ → ℚ → String

/-- The `words` list: tokens with stripped text, dropping those whose
stripped text is empty. -/
def buildWords (tokens : List OcrToken) : List OcrWord :=
  tokens.filterMap fun t =>
    let tc := pyStrip t.text
    if tc = "" then none
    else some ⟨tc, t.x0, t.y0, t.x1 - t.x0, t.y1 - t.y0,
      (t.x0 + t.x1) / 2, (t.y0 + t.y1) / 2⟩

/-- The anchor search text used by `_find_box_with_ocr`: the stored
`anchor_text` unless it is empty or still a `"Anchor:"` placeholder, in
which case it is recovered from the box name. -/
def ocrSearchText (b : LabeledBox) : String :=
  if b.anchor_text = "" || pyStartsWith b.anchor_text "Anchor:" then
    pyStrip (pyReplace (pyReplace b.name "Anchor: " "") "..." "")
  else b.anchor_text

/-- The per-word anchor test:
`anchor_search_lower in word_lower or word_lower in anchor_search_lower`,
with `anchor_search_lower = anchor_search_text.lower().strip()` and
`word_lower = word['text'].lower()`. -/
def anchorMatchesWord (search_text : String) (w : OcrWord) : Bool :=
  let al := pyStrip (pyLower search_text)
  let wl := pyLower w.text
  pyIn al wl || pyIn wl al

/-- Result dictionary of `_find_box_with_ocr`. -/
structure OcrMatch where
  page : ℕ
  anchor_text : String
  value_text : String
  value_rect : Rect
  label_rect : Option Rect
deriving DecidableEq, Repr

/-- Raster-coordinate rectangle `(x, y, w, h)` scaled by `72 / OCR_DPI` into
PDF points, as in the returned `value_rect`/`label_rect`. -/
def scaledRect (x y w h : ℚ) : Rect :=
  ⟨x * 72 / OCR_DPI, y * 72 / OCR_DPI, (x + w) * 72 / OCR_DPI,
    (y + h) * 72 / OCR_DPI⟩

/-- Per-page body of `_find_box_with_ocr`: build the word list from the
full-page detection, take the *first* word matching the anchor text, place
the value rectangle at the trained offset from it, OCR the cropped value
region, and succeed only when that text is non-empty.  No secondary-anchor
verification is performed. -/
def ocr_find_on_page (st : String) (value_dx value_dy value_w value_h : ℚ)
    (label_ofs : Option (ℚ × ℚ × ℚ × ℚ)) (idx : ℕ) (page : OcrPage) :
    Option OcrMatch :=
  match (buildWords page.tokens).find? (anchorMatchesWord st) with
  | none => none
  | some w =>
    let vx := w.left + value_dx
    let vy := w.top + value_dy
    let vt := page.crop_text vx vy value_w value_h
    if vt = "" then none
    else
      let lr := label_ofs.map fun l =>
        scaledRect (w.left + l.1) (w.top + l.2.1) l.2.2.1 l.2.2.2
      some ⟨idx, w.text, vt, scaledRect vx vy value_w value_h, lr⟩

/-- Page loop of `_find_box_with_ocr`. -/
def search_ocr_pages (st : String) (value_dx value_dy value_w value_h : ℚ)
    (label_ofs : Option (ℚ × ℚ × ℚ × ℚ)) :
    ℕ → List OcrPage → Option OcrMatch
  | _, [] => none
  | idx, page :: rest =>
    match ocr_find_on_page st value_dx value_dy value_w value_h label_ofs idx page with
    | some m => some m
    | none =>
      search_ocr_pages st value_dx value_dy value_w value_h label_ofs (idx + 1) rest

/-- `_find_box_with_ocr(doc, anchors, values, ..., label_box)` from
`src/ocr_module.py`.  Only `anchors[0]` and `values[0]` are read; missing
anchors/values, or an empty recovered search text, yield `None`. -/
def find_box_with_ocr (doc : List OcrPage) (anchors values : List LabeledBox)
    (label_box : Option LabeledBox) : Option OcrMatch :=
  match anchors, values with
  | first_anchor :: _, first_value :: _ =>
    let st := ocrSearchText first_anchor
    if st = "" then none
    else
      let label_ofs := label_box.map fun lb =>
        (lb.x - first_anchor.x, lb.y - first_anchor.y, lb.width, lb.height)
      search_ocr_pages st (first_value.x - first_anchor.x)
        (first_value.y - first_anchor.y) first_value.width first_value.height
        label_ofs 0 doc
  | _, _ => none

/-- Modelled from the spec's words for claim C8: a detected token counts as
an occurrence of the primary anchor text iff, after lowercasing both, the
anchor text is a substring of the token text or the token text is a
substring of the anchor text (no whitespace stripping is mentioned). -/
def specTokenOccur (anchor_text token_text : String) : Prop :=
  (pyLower anchor_text).toList <:+: (pyLower token_text).toList ∨
    (pyLower token_text).toList <:+: (pyLower anchor_text).toList

/-! ## Extraction orchestrators (`run_extraction` in both modules)

`open_doc` abstracts `fitz.open`: `none` models an unreadable document (the
`fitz.open` call raising).  Both orchestrators run the whole per-document
loop inside a single `try:` block, so the model returns the rows
accumulated before a failure together with an `aborted` flag (the
`except` branch that shows the error dialog). -/

/-- One label of the loaded template, as assembled into `label_info`. -/
structure LabelSpec where
  name : String
  anchors : List LabeledBox
  values : List LabeledBox

/-- The result row built for one document in the native `run_extraction`:
the filename followed by the anchor/value cell pair of every label (empty
strings for an unmatched label). -/
def row_for (labels : List LabelSpec) (filename : String) (doc : List Page) :
    List String :=
  filename :: (labels.map fun l =>
    match find_box_on_pages doc l.anchors l.values with
    | some m => [m.anchor_text, m.value_text]
    | none => ["", ""]).flatten

/-- `run_extraction` from `src/modules.py`, reduced to its result-building
behaviour: process documents in order inside one `try:`; a document that
fails to open raises, aborting the run with the rows accumulated so far
(second component `true` means the run was aborted by the error handler). -/
def run_extraction (open_doc : String → Option (List Page))
    (labels : List LabelSpec) : List String → List (List String) × Bool
  | [] => ([], false)
  | p :: rest =>
    match open_doc p with
    | none => ([], true)
    | some doc =>
      let r := run_extraction open_doc labels rest
      (row_for labels p doc :: r.1, r.2)

/-- One label of the loaded template in the OCR module (which also carries
the label box itself for backup screenshots). -/
structure OcrLabelSpec where
  name : String
  anchors : List LabeledBox
  values : List LabeledBox
  label_box : Option LabeledBox

/-- The result row built for one document in the OCR `run_extraction`. -/
def row_for_ocr (labels : List OcrLabelSpec) (filename : String)
    (doc : List OcrPage) : List String :=
  filename :: (labels.map fun l =>
    match find_box_with_ocr doc l.anchors l.values l.label_box with
    | some m => [m.anchor_text, m.value_text]
    | none => ["", ""]).flatten

/-- `run_extraction` from `src/ocr_module.py`: identical control flow to the
native orchestrator (one `try:` around the whole document loop). -/
def run_extraction_ocr (open_doc : String → Option (List OcrPage))
    (labels : List OcrLabelSpec) : List String → List (List String) × Bool
  | [] => ([], false)
  | p :: rest =>
    match open_doc p with
    | none => ([], true)
    | some doc =>
      let r := run_extraction_ocr open_doc labels rest
      (row_for_ocr labels p doc :: r.1, r.2)

/-! ## Concrete fixtures used by boundary facts, witnesses and
counterexamples -/

/-- A page whose only text hit for `"S"` sits 50 units right of the origin. -/
def pageTol50 : Page :=
  { search_for := fun t => if t = "S" then [⟨50, 0, 60, 10⟩] else []
    get_text_clip := fun _ => ""
    get_text_blocks := fun _ => []
    rect := ⟨0, 0, 1000, 1000⟩
    rotation := 0 }

/-- Like `pageTol50`, but the hit sits 51 units right of the origin. -/
def pageTol51 : Page :=
  { search_for := fun t => if t = "S" then [⟨51, 0, 61, 10⟩] else []
    get_text_clip := fun _ => ""
    get_text_blocks := fun _ => []
    rect := ⟨0, 0, 1000, 1000⟩
    rotation := 0 }

/-- Candidate primary occurrence at the origin. -/
def P0 : Rect := ⟨0, 0, 10, 10⟩

/-- A secondary anchor expected at offset `(0, 0)` from the primary. -/
def sec0 : SecondaryAnchor := ⟨"S", 0, 0⟩

/-- A primary anchor box named `"A"`. -/
def a0c : LabeledBox := ⟨"A", "", 0, 0, 10, 10⟩

/-- A value box 20 units right of `a0c`. -/
def v0c : LabeledBox := ⟨"V", "", 20, 0, 30, 10⟩

/-- A page with no hit for a multi-word anchor but a hit for its first word. -/
def pageFW : Page :=
  { search_for := fun t => if t = "Account" then [⟨100, 50, 160, 60⟩] else []
    get_text_clip := fun _ => ""
    get_text_blocks := fun _ => []
    rect := ⟨0, 0, 600, 800⟩
    rotation := 0 }

/-- Document source for the orchestrator fixtures: `"b"` fails to open,
everything else opens as an empty document. -/
def open3 : String → Option (List Page) := fun p => if p = "b" then none else some []

/-- An anchor box with stored OCR anchor text `"ab"`. -/
def anch1 : LabeledBox := ⟨"Anchor: ab", "ab", 0, 0, 5, 5⟩

/-- A detected OCR word with text `"xabx"`. -/
def wtok : OcrWord := ⟨"xabx", 0, 0, 4, 1, 2, 0⟩

/-! ## Helper lemmas -/

theorem listPre_iff (a b : List Char) : listPre a b = true ↔ a <+: b := by
  induction a generalizing b with
  | nil => simp [listPre]
  | cons x xs ih =>
    cases b with
    | nil => simp [listPre]
    | cons y ys => simp [listPre, List.cons_prefix_cons, ih]

theorem listSub_iff (n h : List Char) : listSub n h = true ↔ n <:+: h := by
  induction h with
  | nil =>
    cases n <;> simp [listSub, List.isEmpty]
  | cons c t ih =>
    simp [listSub, List.infix_cons_iff, listPre_iff, ih, Bool.or_eq_true]

theorem pyIn_iff (n h : String) : pyIn n h = true ↔ n.toList <:+: h.toList :=
  listSub_iff n.toList h.toList

theorem search_pages_cons (pt : String) (secs : List SecondaryAnchor)
    (vdx vdy vw vh : ℚ) (idx : ℕ) (page : Page) (rest : List Page) :
    search_pages pt secs vdx vdy vw vh idx (page :: rest) =
      (find_on_page pt secs vdx vdy vw vh idx page).or
        (search_pages pt secs vdx vdy vw vh (idx + 1) rest) := by
  cases h : find_on_page pt secs vdx vdy vw vh idx page <;>
    simp [search_pages, h, Option.or]

theorem search_pages_eq_findSome (pt : String) (secs : List SecondaryAnchor)
    (vdx vdy vw vh : ℚ) (idx : ℕ) (doc : List Page) :
    search_pages pt secs vdx vdy vw vh idx doc =
      (allCandidates pt idx doc).findSome? fun c =>
        candidateResult pt secs vdx vdy vw vh c.1 c.2.1 c.2.2 := by
  induction doc generalizing idx with
  | nil => rfl
  | cons page rest ih =>
    rw [search_pages_cons, allCandidates, List.findSome?_append,
      List.findSome?_map, ih (idx + 1), find_on_page]
    rfl

/-! ## Claims -/

/-- C1: a candidate occurrence `P` of the primary anchor passes the
secondary-anchor gate of `_find_box_on_pages` (the `all_secondary_match`
flag) iff every secondary anchor with non-empty stripped text has some
occurrence `Q` with `|Q.x − P.x − (Ai.x − A0.x)| ≤ POSITION_TOLERANCE` and
`|Q.y − P.y − (Ai.y − A0.y)| ≤ POSITION_TOLERANCE`; `POSITION_TOLERANCE`
is 50; with no secondary anchors the gate is vacuously true; and on the
boundary fixtures an offset difference of exactly 50 passes while 51
fails. -/
theorem secondary_anchor_tolerance :
    (∀ (page : Page) (P : Rect) (a0 : LabeledBox) (rest : List LabeledBox),
      all_secondaries_match page P (mkSecondaries a0 rest) = true ↔
        ∀ a ∈ rest, pyStrip a.name ≠ "" →
          ∃ Q ∈ page.search_for (pyStrip a.name),
            |Q.x0 - P.x0 - (a.x - a0.x)| ≤ POSITION_TOLERANCE ∧
            |Q.y0 - P.y0 - (a.y - a0.y)| ≤ POSITION_TOLERANCE) ∧
    (∀ (page : Page) (P : Rect) (a0 : LabeledBox),
      all_secondaries_match page P (mkSecondaries a0 []) = true) ∧
    POSITION_TOLERANCE = 50 ∧
    secondary_matches pageTol50 P0 sec0 = true ∧
    secondary_matches pageTol51 P0 sec0 = false := by
  refine ⟨?_, ?_, rfl, ?_, ?_⟩
  · intro page P a0 rest
    constructor
    · intro hall a ha hne
      rw [all_secondaries_match, List.all_eq_true] at hall
      have hs : secondary_matches page P
          ⟨pyStrip a.name, a.x - a0.x, a.y - a0.y⟩ = true := by
        refine hall _ ?_
        rw [mkSecondaries, List.mem_filterMap]
        exact ⟨a, ha, by simp [hne]⟩
      rw [secondary_matches, List.any_eq_true] at hs
      obtain ⟨Q, hQ, hb⟩ := hs
      rw [Bool.and_eq_true, decide_eq_true_eq, decide_eq_true_eq] at hb
      exact ⟨Q, hQ, hb⟩
    · intro hx
      rw [all_secondaries_match, List.all_eq_true]
      intro s hs
      rw [mkSecondaries, List.mem_filterMap] at hs
      obtain ⟨a, ha, hfa⟩ := hs
      by_cases hne : pyStrip a.name = ""
      · simp [hne] at hfa
      · rw [if_neg hne] at hfa
        obtain ⟨Q, hQ, h1, h2⟩ := hx a ha hne
        cases hfa
        rw [secondary_matches, List.any_eq_true]
        exact ⟨Q, hQ, by
          rw [Bool.and_eq_true, decide_eq_true_eq, decide_eq_true_eq]
          exact ⟨h1, h2⟩⟩
  · intro page P a0
    rfl
  · norm_num [secondary_matches, pageTol50, P0, sec0, POSITION_TOLERANCE]
  · norm_num [secondary_matches, pageTol51, P0, sec0, POSITION_TOLERANCE]

/-- Witness for C1: the vacuous case at a concrete page, candidate and
primary anchor. -/
theorem secondary_anchor_tolerance_witness :
    all_secondaries_match pageTol50 P0 (mkSecondaries a0c []) = true :=
  secondary_anchor_tolerance.2.1 pageTol50 P0 a0c

/-- C2: with a usable primary anchor, `_find_box_on_pages` returns the result
of the *first* candidate — pages strictly in page order and, within a page,
occurrences in locator order — whose secondary anchors verify and whose
value rectangle yields non-empty text (`candidateResult` is `none` exactly
when the secondary gate fails or the extracted text is empty, so such
candidates are skipped and nothing after the first success is returned). -/
theorem find_box_first_accepted (doc : List Page) (a0 : LabeledBox)
    (rest : List LabeledBox) (v0 : LabeledBox) (vs : List LabeledBox)
    (h : pyStrip a0.name ≠ "") :
    find_box_on_pages doc (a0 :: rest) (v0 :: vs) =
      (allCandidates (pyStrip a0.name) 0 doc).findSome? fun c =>
        candidateResult (pyStrip a0.name) (mkSecondaries a0 rest)
          (v0.x - a0.x) (v0.y - a0.y) v0.width v0.height c.1 c.2.1 c.2.2 := by
  rw [find_box_on_pages, if_neg h, search_pages_eq_findSome]

/-- Witness for C2 at a concrete instantiation. -/
theorem find_box_first_accepted_witness :
    pyStrip a0c.name ≠ "" ∧
    find_box_on_pages [] [a0c] [v0c] =
      (allCandidates (pyStrip a0c.name) 0 []).findSome? fun c =>
        candidateResult (pyStrip a0c.name) (mkSecondaries a0c [])
          (v0c.x - a0c.x) (v0c.y - a0c.y) v0c.width v0c.height
          c.1 c.2.1 c.2.2 :=
  ⟨by decide, find_box_first_accepted [] a0c [] v0c [] (by decide)⟩

/-- C3: the per-candidate step of `_find_box_on_pages` computes, for an
accepted occurrence `P`, exactly the spec's value rectangle
(`value.x = P.x + (V0.x − A0.x)`, `value.y = P.y + (V0.y − A0.y)`,
size `V0.width × V0.height`, normalized and intersected with the page
bounds), and the matcher only ever reads the first value child: the value
tail is irrelevant to its result. -/
theorem value_rect_from_offsets :
    (∀ (pt : String) (secs : List SecondaryAnchor) (a0 v0 : LabeledBox)
        (idx : ℕ) (page : Page) (P : Rect),
      candidateResult pt secs (v0.x - a0.x) (v0.y - a0.y) v0.width v0.height
          idx page P =
        if all_secondaries_match page P secs then
          if extract_value_text page (specValueRect P a0 v0 page) = "" then none
          else some ⟨idx, pt, extract_value_text page (specValueRect P a0 v0 page),
            specValueRect P a0 v0 page, page.rotation⟩
        else none) ∧
    (∀ (doc : List Page) (a0 : LabeledBox) (rest : List LabeledBox)
        (v0 : LabeledBox) (vs vs' : List LabeledBox),
      find_box_on_pages doc (a0 :: rest) (v0 :: vs) =
        find_box_on_pages doc (a0 :: rest) (v0 :: vs')) :=
  ⟨fun _ _ _ _ _ _ _ => rfl, fun _ _ _ _ _ _ => rfl⟩

/-- C4 counterexample: at the unsupported rotation 45 the transform returns
the input rectangle unchanged — the claimed `InvalidRotation` failure does
not exist; the code's `else` branch is a silent identity fallback. -/
theorem invalid_rotation_counterexample :
    transform_visual_to_pdf_coords 1 2 3 4 100 200 45 = (1, 2, 3, 4) := rfl

/-- C4 (amended): for every rotation value outside {0, 90, 180, 270} the
transform silently returns the input rectangle unchanged (identity
fallback); no error is raised. -/
theorem invalid_rotation_identity (x y w h pw ph : ℚ) (rot : ℤ)
    (h0 : rot ≠ 0) (h90 : rot ≠ 90) (h180 : rot ≠ 180) (h270 : rot ≠ 270) :
    transform_visual_to_pdf_coords x y w h pw ph rot = (x, y, w, h) := by
  rw [transform_visual_to_pdf_coords, if_neg h0, if_neg h90, if_neg h180,
    if_neg h270]

/-- Witness for the amended C4 at rotation 45. -/
theorem invalid_rotation_identity_witness :
    ((45 : ℤ) ≠ 0 ∧ (45 : ℤ) ≠ 90 ∧ (45 : ℤ) ≠ 180 ∧ (45 : ℤ) ≠ 270) ∧
    transform_visual_to_pdf_coords 5 6 7 8 300 400 45 = (5, 6, 7, 8) :=
  ⟨⟨by decide, by decide, by decide, by decide⟩,
    invalid_rotation_identity 5 6 7 8 300 400 45 (by decide) (by decide)
      (by decide) (by decide)⟩

/-- C5 counterexample: on a 400×500 (visual) page with rotation 90, the
transform as invoked by the source does not produce the spec's rectangle —
the code subtracts from the *visual width* stored by `render_current_page`,
not from the raw-space width (= visual height) the claim names. -/
theorem rotation90_raw_width_counterexample :
    visualToRaw 30 60 200 10 ⟨400, 500, 90⟩ ≠
      specVisualToRaw90 30 60 200 10 ⟨400, 500, 90⟩ := by
  intro h
  rw [visualToRaw, transform_visual_to_pdf_coords, specVisualToRaw90] at h
  simp only [Prod.mk.injEq] at h
  norm_num at h

/-- C5 (amended): for rotation 90 the transform returns
`raw.x = visual.y`, `raw.y = page.visual_width − visual.x − visual.width`,
`raw.width = visual.height`, `raw.height = visual.width`, where
`page.visual_width` is the visual page width the call sites pass (for a
90°-rotated page this equals the raw-space *height*). -/
theorem rotation90_visual_width (x y w h : ℚ) (p : PageView)
    (hrot : p.rotation = 90) :
    visualToRaw x y w h p = (y, p.visualWidth - x - w, h, w) := by
  obtain ⟨vw, vh, rot⟩ := p
  simp only [PageView.rotation] at hrot
  subst hrot
  rfl

/-- Witness for the amended C5 at the spec's 400×500 fixture. -/
theorem rotation90_visual_width_witness :
    PageView.rotation ⟨400, 500, 90⟩ = 90 ∧
    visualToRaw 30 60 200 10 ⟨400, 500, 90⟩ =
      (60, (400 : ℚ) - 30 - 200, 10, 200) :=
  ⟨rfl, rotation90_visual_width 30 60 200 10 ⟨400, 500, 90⟩ rfl⟩

/-- C6 counterexample: in a batch of three documents whose second fails to
open, `run_extraction` does not return two rows with the run intact — the
single `try:` around the whole loop aborts the run at the failure, leaving
one row and the aborted flag set. -/
theorem orchestrator_resilience_counterexample :
    ¬ ((run_extraction open3 [] ["a", "b", "c"]).1.length = 2 ∧
       (run_extraction open3 [] ["a", "b", "c"]).2 = false) := by
  decide

/-- C6 (amended): when a document fails to open, the run is aborted: the
rows of the documents processed before the failure are kept, every
document from the failing one onwards is dropped, and the failure is
surfaced for the whole run (aborted flag). -/
theorem run_extraction_aborts_on_open_failure
    (open_doc : String → Option (List Page)) (labels : List LabelSpec)
    (good : List String) (bad : String) (rest : List String)
    (hgood : ∀ p ∈ good, (open_doc p).isSome = true)
    (hbad : open_doc bad = none) :
    run_extraction open_doc labels (good ++ bad :: rest) =
      ((run_extraction open_doc labels good).1, true) := by
  revert hgood
  induction good with
  | nil =>
    intro _
    simp [run_extraction, hbad]
  | cons p g ih =>
    intro hgood
    obtain ⟨doc, hdoc⟩ :=
      Option.isSome_iff_exists.mp (hgood p (List.mem_cons_self p g))
    have ihg := ih fun q hq => hgood q (List.mem_cons_of_mem p hq)
    simp only [List.cons_append, run_extraction, hdoc, List.append_eq, ihg]

/-- Witness for the amended C6: batch `["a", "b", "c"]` with `"b"` failing. -/
theorem run_extraction_aborts_witness :
    (∀ p ∈ ["a"], (open3 p).isSome = true) ∧ open3 "b" = none ∧
    run_extraction open3 [] (["a"] ++ "b" :: ["c"]) =
      ((run_extraction open3 [] ["a"]).1, true) :=
  ⟨by decide, rfl,
    run_extraction_aborts_on_open_failure open3 [] ["a"] "b" ["c"]
      (by decide) rfl⟩

/-- C7: on a page where the full primary-anchor string has no occurrence,
the matcher retries with the first whitespace-delimited word of the anchor
string and uses those occurrences as the candidate set of the per-page
search. -/
theorem first_word_fallback (page : Page) (pt w : String)
    (hempty : page.search_for pt = []) (hw : firstWord pt = some w) :
    primaryInstancesOn pt page = page.search_for w ∧
    ∀ (secs : List SecondaryAnchor) (vdx vdy vw vh : ℚ) (idx : ℕ),
      find_on_page pt secs vdx vdy vw vh idx page =
        (page.search_for w).findSome?
          (candidateResult pt secs vdx vdy vw vh idx page) := by
  have h1 : primaryInstancesOn pt page = page.search_for w := by
    rw [primaryInstancesOn, hempty]
    simp [hw]
  exact ⟨h1, fun secs vdx vdy vw vh idx => by rw [find_on_page, h1]⟩

/-- Witness for C7: `"Account Number:"` has no occurrence on `pageFW`, its
first word `"Account"` does. -/
theorem first_word_fallback_witness :
    pageFW.search_for "Account Number:" = [] ∧
    firstWord "Account Number:" = some "Account" ∧
    primaryInstancesOn "Account Number:" pageFW =
      pageFW.search_for "Account" :=
  ⟨by decide, by decide,
    (first_word_fallback pageFW "Account Number:" "Account"
      (by decide) (by decide)).1⟩

/-- C8 (amended): in `_find_box_with_ocr` a detected token counts as an
occurrence of the primary anchor text iff, after lowercasing both *and
stripping surrounding whitespace from the anchor search text* (token texts
are already stripped when the word list is built), the anchor text is a
substring of the token text or conversely — containment in either
direction, not equality.  The word list this predicate is applied to is
built from the full-page-raster detection output (`buildWords`). -/
theorem ocr_containment_match :
    ∀ (st : String) (w : OcrWord),
      anchorMatchesWord st w = true ↔
        (trimChars (pyLower st).toList <:+: (pyLower w.text).toList ∨
         (pyLower w.text).toList <:+: trimChars (pyLower st).toList) := by
  intro st w
  simp only [anchorMatchesWord, Bool.or_eq_true, pyIn_iff]
  exact Iff.rfl

/-- C8 counterexample: for the whitespace-padded anchor text `" ab "` and
token `"xabx"`, the matcher accepts (it strips the anchor before the
containment test) while the claim's lowercase-only containment predicate
rejects in both directions. -/
theorem ocr_containment_counterexample :
    anchorMatchesWord " ab " wtok = true ∧ ¬ specTokenOccur " ab " "xabx" := by
  refine ⟨by decide, fun h => ?_⟩
  rcases h with h | h
  · exact absurd ((listSub_iff _ _).mpr h) (by decide)
  · exact absurd ((listSub_iff _ _).mpr h) (by decide)

/-- C9: a label with no anchor children or no value children is skipped —
both matchers return `None` for every document without searching a page —
and in the native path the same holds when the primary anchor's stored
text strips to the empty string; the orchestrator then records empty
strings for that label's cells. -/
theorem malformed_label_skipped
    (doc : List Page) (odoc : List OcrPage)
    (anchors values oa ov : List LabeledBox) (lb : Option LabeledBox)
    (name filename : String) :
    (anchors = [] ∨ values = [] → find_box_on_pages doc anchors values = none) ∧
    (∀ a0 rest, anchors = a0 :: rest → pyStrip a0.name = "" →
      find_box_on_pages doc anchors values = none) ∧
    (oa = [] ∨ ov = [] → find_box_with_ocr odoc oa ov lb = none) ∧
    (find_box_on_pages doc anchors values = none →
      row_for [⟨name, anchors, values⟩] filename doc = [filename, "", ""]) := by
  refine ⟨?_, ?_, ?_, ?_⟩
  · rintro (h | h) <;> subst h
    · cases values <;> rfl
    · cases anchors <;> rfl
  · rintro a0 rest rfl hname
    cases values with
    | nil => rfl
    | cons v vs => simp [find_box_on_pages, hname]
  · rintro (h | h) <;> subst h
    · cases ov <;> rfl
    · cases oa <;> rfl
  · intro h
    simp [row_for, h]

/-- Witness for C9: empty anchor list, whitespace-only primary anchor name,
empty OCR anchor/value lists, and the resulting empty row cells. -/
theorem malformed_label_skipped_witness :
    find_box_on_pages [] [] [v0c] = none ∧
    find_box_on_pages [] [⟨" ", "", 0, 0, 1, 1⟩] [v0c] = none ∧
    find_box_with_ocr [] [] [] none = none ∧
    row_for [⟨"L", [], []⟩] "doc.pdf" [] = ["doc.pdf", "", ""] :=
  ⟨(malformed_label_skipped [] [] [] [v0c] [] [] none "L" "doc.pdf").1
      (Or.inl rfl),
   (malformed_label_skipped [] [] [⟨" ", "", 0, 0, 1, 1⟩] [v0c] [] [] none
      "L" "doc.pdf").2.1 ⟨" ", "", 0, 0, 1, 1⟩ [] rfl (by decide),
   (malformed_label_skipped [] [] [] [] [] [] none "L" "doc.pdf").2.2.1
      (Or.inl rfl),
   (malformed_label_skipped [] [] [] [] [] [] none "L" "doc.pdf").2.2.2
      ((malformed_label_skipped [] [] [] [] [] [] none "L" "doc.pdf").1
        (Or.inl rfl))⟩

/-- C10: the OCR matcher never reads the secondary anchors — two anchor
lists agreeing on their first element produce identical results on every
document (noninterference of the secondary-anchor input): only `anchors[0]`
is read, and the first containment-matching token is accepted with no
secondary-anchor position verification. -/
theorem ocr_secondary_noninterference (doc : List OcrPage)
    (anchors1 anchors2 values : List LabeledBox) (lb : Option LabeledBox)
    (h : anchors1.head? = anchors2.head?) :
    find_box_with_ocr doc anchors1 values lb =
      find_box_with_ocr doc anchors2 values lb := by
  cases anchors1 with
  | nil =>
    cases anchors2 with
    | nil => rfl
    | cons b bs => simp at h
  | cons a as =>
    cases anchors2 with
    | nil => simp at h
    | cons b bs =>
      simp only [List.head?_cons, Option.some.injEq] at h
      subst h
      cases values with
      | nil => rfl
      | cons v vs => rfl

/-- Witness for C10: `[anch1]` versus `[anch1, v0c]`. -/
theorem ocr_secondary_noninterference_witness :
    ([anch1] : List LabeledBox).head? = ([anch1, v0c] : List LabeledBox).head? ∧
    find_box_with_ocr [] [anch1] [v0c] none =
      find_box_with_ocr [] [anch1, v0c] [v0c] none :=
  ⟨rfl, ocr_secondary_noninterference [] [anch1] [anch1, v0c] [v0c] none rfl⟩

end PDFE
